import Mathlib

/-!
Shallow embedding of the AI-provider core of the `config_camp2026` backend:
the OpenAI error classifier (`mapOpenAIError`), the retry executor
(`AIProvider.retryOperation`), metadata sanitization
(`AIProvider.sanitizeMetadata`), the vector-store attach polling loop
(`OpenAIProvider.waitForVectorStoreFile`), the provider factory
(`ProviderFactory.getProvider` / `OpenAIProvider.getInstance`) and the
credential masking accessor (`OpenAIConfigManager.getMaskedApiKey`).

Conventions:
* JavaScript values that may be absent or falsy (`undefined`, `null`, `0`,
  `""`) on the coalescing paths (`a || b`, `if (x)`) are modelled as
  `Option` with `none` standing for "absent or falsy", so `Option.orElse`
  (`<|>`) coincides with JS `||` on these fields.
* Machine numbers in the embedded code are small non-negative integers
  (HTTP status codes, attempt counters, millisecond delays); they are
  modelled as `Nat`, except the poll backoff delay, which is multiplied by
  the float `1.5` in the source and is therefore modelled as `ℚ`
  (every value reachable from 1000 under `d ↦ min (d * 1.5) 5000` is
  exactly representable as a double, so exact rational arithmetic agrees
  with the source's float arithmetic on this orbit).
* Loops are embedded as structurally recursive functions on an explicit
  fuel argument chosen at least as large as the loop bound, so the fuel
  never runs out before the loop's own exit condition fires.
-/

namespace CampProviders

/-! ## OpenAIErrors: error taxonomy and classifier (`mapOpenAIError`) -/

/-- A raw error value as inspected by `mapOpenAIError`: the classifier reads
`error.message`, `error.error.message`, `error.type`, `error.error.type`,
`error.status` and `error.statusCode`.  `none` models an absent (or falsy)
field. -/
structure RawError where
  message : Option String
  nestedMessage : Option String
  type : Option String
  nestedType : Option String
  status : Option Nat
  statusCode : Option Nat
deriving DecidableEq

/-- A classified error: `name` is the concrete error class
(`OpenAIAuthenticationError`, ...), `type` its stable tag and `statusCode`
its numeric status. -/
structure MappedError where
  name : String
  message : String
  type : String
  statusCode : Nat
deriving DecidableEq

def OpenAIAuthenticationError (message : String) : MappedError :=
  ⟨"OpenAIAuthenticationError", message, "authentication_error", 401⟩

def OpenAIRateLimitError (message : String) : MappedError :=
  ⟨"OpenAIRateLimitError", message, "rate_limit_error", 429⟩

def OpenAIQuotaError (message : String) : MappedError :=
  ⟨"OpenAIQuotaError", message, "insufficient_quota", 429⟩

def OpenAINotFoundError (message : String) : MappedError :=
  ⟨"OpenAINotFoundError", message, "not_found_error", 404⟩

def OpenAIValidationError (message : String) : MappedError :=
  ⟨"OpenAIValidationError", message, "invalid_request_error", 400⟩

def OpenAITimeoutError (message : String) : MappedError :=
  ⟨"OpenAITimeoutError", message, "timeout_error", 408⟩

def OpenAIServerError (message : String) : MappedError :=
  ⟨"OpenAIServerError", message, "server_error", 500⟩

def OpenAIConfigurationError (message : String) : MappedError :=
  ⟨"OpenAIConfigurationError", message, "configuration_error", 500⟩

/-- The generic base class `OpenAIError` with explicit tag and status. -/
def OpenAIErrorMk (message type : String) (statusCode : Nat) : MappedError :=
  ⟨"OpenAIError", message, type, statusCode⟩

/-- `error?.type || error?.error?.type` -/
def effectiveType (e : RawError) : Option String :=
  e.type <|> e.nestedType

/-- `error?.status || error?.statusCode` -/
def effectiveStatus (e : RawError) : Option Nat :=
  e.status <|> e.statusCode

/-- `error?.message || error?.error?.message || "Error desconocido de OpenAI"` -/
def effectiveMessage (e : RawError) : String :=
  (e.message <|> e.nestedMessage).getD "Error desconocido de OpenAI"

/-- `mapOpenAIError` from `OpenAIErrors.ts`: first match on the vendor type
tag, then fall back to the numeric status, then a generic error. -/
def mapOpenAIError (e : RawError) : MappedError :=
  let errorMessage := effectiveMessage e
  let errorType := effectiveType e
  let statusCode := effectiveStatus e
  if errorType = some "invalid_api_key" ∨ errorType = some "authentication_error" then
    OpenAIAuthenticationError errorMessage
  else if errorType = some "rate_limit_exceeded" then
    OpenAIRateLimitError errorMessage
  else if errorType = some "insufficient_quota" then
    OpenAIQuotaError errorMessage
  else if errorType = some "invalid_request_error" then
    OpenAIValidationError errorMessage
  else if errorType = some "not_found" then
    OpenAINotFoundError errorMessage
  else
    match statusCode with
    | some s =>
      if s = 401 then OpenAIAuthenticationError errorMessage
      else if s = 404 then OpenAINotFoundError errorMessage
      else if s = 429 then OpenAIRateLimitError errorMessage
      else if s = 408 then OpenAITimeoutError errorMessage
      else if 400 ≤ s ∧ s < 500 then OpenAIValidationError errorMessage
      else if 500 ≤ s then OpenAIServerError errorMessage
      else OpenAIErrorMk errorMessage (errorType.getD "unknown_error") s
    | none => OpenAIErrorMk errorMessage (errorType.getD "unknown_error") 500

/-- The vendor type tags recognized by the tag phase of `mapOpenAIError`. -/
def recognizedTags : List String :=
  ["invalid_api_key", "authentication_error", "rate_limit_exceeded",
   "insufficient_quota", "invalid_request_error", "not_found"]

/-- No recognized vendor tag is present, so the classifier falls through to
the numeric-status phase. -/
def noRecognizedTag (e : RawError) : Prop :=
  ∀ t ∈ recognizedTags, effectiveType e ≠ some t

/-! ## AIProvider.retryOperation: bounded retry with linear backoff -/

/-- An error thrown by an operation wrapped in `retryOperation`; the
executor only inspects `error.statusCode` (`none` models an absent or
falsy — `0` — field). -/
structure OpError where
  message : String
  statusCode : Option Nat
deriving DecidableEq

/-- `error.statusCode && error.statusCode < 500`: a client error that must
not be retried. -/
def clientError : Option Nat → Bool
  | some s => s < 500
  | none => false

/-- The observable outcome of one `retryOperation` run: the value returned
or the value thrown (`Except.error none` models `throw lastError` with
`lastError` still `undefined`), the number of invocations of the wrapped
operation, and the list of backoff sleeps in milliseconds, in order. -/
structure RetryTrace (α : Type) where
  result : Except (Option OpError) α
  calls : Nat
  sleeps : List Nat

/-- The body of `retryOperation`'s `for (attempt = 1; attempt <= maxRetries;
attempt++)` loop.  `op i` is the outcome of the `i`-th invocation of the
wrapped operation.  The fuel argument only drives the recursion; the loop
exits via its own `attempt > maxRetries` test because the caller passes
`maxRetries + 1` fuel. -/
def retryGo {α : Type} (op : Nat → Except OpError α) (maxRetries delayMs : Nat) :
    Nat → Nat → Option OpError → Nat → List Nat → RetryTrace α
  | 0, _, lastError, calls, sleeps => ⟨Except.error lastError, calls, sleeps⟩
  | fuel + 1, attempt, lastError, calls, sleeps =>
    if attempt > maxRetries then
      -- loop exhausted: `throw lastError`
      ⟨Except.error lastError, calls, sleeps⟩
    else
      match op attempt with
      | Except.ok v => ⟨Except.ok v, calls + 1, sleeps⟩
      | Except.error e =>
        if clientError e.statusCode then
          -- client error (4xx-style): re-raise immediately
          ⟨Except.error (some e), calls + 1, sleeps⟩
        else if attempt < maxRetries then
          retryGo op maxRetries delayMs fuel (attempt + 1) (some e) (calls + 1)
            (sleeps ++ [delayMs * attempt])
        else
          retryGo op maxRetries delayMs fuel (attempt + 1) (some e) (calls + 1) sleeps

/-- `AIProvider.retryOperation(operation, maxRetries, delayMs)`. -/
def retryOperation {α : Type} (op : Nat → Except OpError α)
    (maxRetries : Nat := 3) (delayMs : Nat := 1000) : RetryTrace α :=
  retryGo op maxRetries delayMs (maxRetries + 1) 1 none 0 []

/-! ## AIProvider.sanitizeMetadata -/

/-- A JavaScript value as seen by `sanitizeMetadata` / `JSON.stringify`:
strings, numbers (integral values suffice for this code base), booleans,
`null`, `undefined`, arrays and plain objects (ordered key/value lists,
matching `Object.entries` insertion order). -/
inductive JsValue : Type
  | str (s : String)
  | num (n : Int)
  | bool (b : Bool)
  | null
  | undef
  | arr (elems : List JsValue)
  | obj (fields : List (String × JsValue))

/-- JSON string quoting as performed by `JSON.stringify` (escaping the
characters relevant to this code base: quote and backslash). -/
def escapeChar (c : Char) : String :=
  if c = '"' then "\\\"" else if c = '\\' then "\\\\" else String.singleton c

/-- Quote a string as a JSON string literal. -/
def jsonQuote (s : String) : String :=
  "\"" ++ String.join (s.toList.map escapeChar) ++ "\""

mutual

/-- `JSON.stringify` (on defined values; a nested `undefined` becomes
`null` inside arrays and is omitted inside objects). -/
def stringify : JsValue → String
  | JsValue.str s => jsonQuote s
  | JsValue.num n => toString n
  | JsValue.bool b => if b then "true" else "false"
  | JsValue.null => "null"
  | JsValue.undef => "null"
  | JsValue.arr elems => "[" ++ String.intercalate "," (stringifyElems elems) ++ "]"
  | JsValue.obj fields => "\x7b" ++ String.intercalate "," (stringifyFields fields) ++ "\x7d"

/-- Serialized forms of the elements of a JSON array. -/
def stringifyElems : List JsValue → List String
  | [] => []
  | v :: rest => stringify v :: stringifyElems rest

/-- Serialized `"key":value` pieces of a JSON object, omitting entries
whose value is `undefined`. -/
def stringifyFields : List (String × JsValue) → List String
  | [] => []
  | (_, JsValue.undef) :: rest => stringifyFields rest
  | (k, v) :: rest => (jsonQuote k ++ ":" ++ stringify v) :: stringifyFields rest

end

/-- `typeof value` is `"string"`, `"number"` or `"boolean"`. -/
def isScalar : JsValue → Bool
  | JsValue.str _ => true
  | JsValue.num _ => true
  | JsValue.bool _ => true
  | _ => false

/-- The entry loop of `AIProvider.sanitizeMetadata`: scalars pass through,
`null`/`undefined` entries are skipped, anything else is replaced by its
`JSON.stringify` serialization. -/
def sanitizeEntries : List (String × JsValue) → List (String × JsValue)
  | [] => []
  | (k, v) :: rest =>
    match v with
    | JsValue.str s => (k, JsValue.str s) :: sanitizeEntries rest
    | JsValue.num n => (k, JsValue.num n) :: sanitizeEntries rest
    | JsValue.bool b => (k, JsValue.bool b) :: sanitizeEntries rest
    | JsValue.null => sanitizeEntries rest
    | JsValue.undef => sanitizeEntries rest
    | v => (k, JsValue.str (stringify v)) :: sanitizeEntries rest

/-- `AIProvider.sanitizeMetadata(metadata)`: `undefined` in, `undefined`
out; an all-dropped (empty) result also becomes `undefined`. -/
def sanitizeMetadata : Option (List (String × JsValue)) → Option (List (String × JsValue))
  | none => none
  | some metadata =>
    let sanitized := sanitizeEntries metadata
    if sanitized.length > 0 then some sanitized else none

/-! ## OpenAIProvider.waitForVectorStoreFile: attach polling loop -/

/-- A vector-store file record as read by the polling loop:
`file.status` and `file.last_error?.message`. -/
structure PollFile where
  status : String
  lastErrorMessage : Option String
deriving DecidableEq

/-- An error thrown by `client.vectorStores.files.retrieve`; the loop
inspects `error.status`. -/
structure PollError where
  status : Option Nat
  message : String
deriving DecidableEq

/-- Outcome of one `retrieve` call during polling. -/
inductive PollStep : Type
  | file (f : PollFile)
  | raise (e : PollError)

/-- A value thrown out of the polling loop: either a `new Error(...)`
raised for a failed/cancelled/timed-out run (a plain Error carries only a
message — no `type`, `status` or `statusCode` field), or a retrieve error
re-thrown by the catch block. -/
inductive PollThrow : Type
  | plainError (message : String)
  | rethrown (e : PollError)
deriving DecidableEq

/-- The observable outcome of one `waitForVectorStoreFile` run: the record
returned or the value thrown, the number of `retrieve` calls, and the list
of waits (in ms) performed before polls, in order. -/
structure PollTrace where
  result : Except PollThrow PollFile
  polls : Nat
  waits : List ℚ

/-- The timeout message thrown after the attempt budget is exhausted. -/
def timeoutMessage (maxAttempts : Nat) : String :=
  "Timeout: Archivo no completó procesamiento después de " ++ toString maxAttempts
    ++ " intentos"

/-- The message thrown on a `failed` poll status. -/
def failedMessage (lastErrorMessage : Option String) : String :=
  "Archivo falló al procesarse: " ++ lastErrorMessage.getD "Unknown error"

/-- The message thrown on a `cancelled` poll status. -/
def cancelledMessage : String :=
  "Procesamiento del archivo fue cancelado"

/-- The body of `waitForVectorStoreFile`'s
`for (attempt = 1; attempt <= maxAttempts; attempt++)` loop.  `polls i` is
the outcome of the `retrieve` call of attempt `i`.  Before every attempt
but the first, the loop waits `delayMs` and then updates
`delayMs = min(delayMs * 1.5, 5000)`.  A `completed` status returns the
record; `failed` and `cancelled` throw plain Errors (which the catch block
re-throws, since a plain Error carries no `status === 404`); a retrieve
error with status 404 before the last attempt continues the loop; any
other retrieve error is re-thrown; falling off the loop throws the timeout
Error.  The fuel argument only drives the recursion; the caller passes
`maxAttempts + 1` fuel. -/
def pollGo (polls : Nat → PollStep) (maxAttempts : Nat) :
    Nat → Nat → ℚ → Nat → List ℚ → PollTrace
  | 0, _, _, count, waits =>
    ⟨Except.error (PollThrow.plainError (timeoutMessage maxAttempts)), count, waits⟩
  | fuel + 1, attempt, delayMs, count, waits =>
    if attempt > maxAttempts then
      ⟨Except.error (PollThrow.plainError (timeoutMessage maxAttempts)), count, waits⟩
    else
      let waits1 := if 1 < attempt then waits ++ [delayMs] else waits
      let delayMs1 := if 1 < attempt then min (delayMs * (3 / 2)) 5000 else delayMs
      match polls attempt with
      | PollStep.file f =>
        if f.status = "completed" then ⟨Except.ok f, count + 1, waits1⟩
        else if f.status = "failed" then
          ⟨Except.error (PollThrow.plainError (failedMessage f.lastErrorMessage)),
            count + 1, waits1⟩
        else if f.status = "cancelled" then
          ⟨Except.error (PollThrow.plainError cancelledMessage), count + 1, waits1⟩
        else pollGo polls maxAttempts fuel (attempt + 1) delayMs1 (count + 1) waits1
      | PollStep.raise e =>
        if e.status = some 404 ∧ attempt < maxAttempts then
          pollGo polls maxAttempts fuel (attempt + 1) delayMs1 (count + 1) waits1
        else ⟨Except.error (PollThrow.rethrown e), count + 1, waits1⟩

/-- `OpenAIProvider.waitForVectorStoreFile(vectorStoreId, fileId,
maxAttempts = 60, initialDelayMs = 1000)`. -/
def waitForVectorStoreFile (polls : Nat → PollStep) (maxAttempts : Nat := 60)
    (initialDelayMs : ℚ := 1000) : PollTrace :=
  pollGo polls maxAttempts (maxAttempts + 1) 1 initialDelayMs 0 []

/-- The wait performed before poll `n + 2` (the first poll waits nothing):
starts at 1000ms, then `next = min(prev * 1.5, 5000)`. -/
def delaySeq : Nat → ℚ
  | 0 => 1000
  | n + 1 => min (delaySeq n * (3 / 2)) 5000

/-- How a value thrown out of the polling loop appears to `mapOpenAIError`
in the catch block of `createAndPollVectorStoreFile`: a plain Error has
only a message; a re-thrown retrieve error also carries `error.status`. -/
def toRawError : PollThrow → RawError
  | PollThrow.plainError m => ⟨some m, none, none, none, none, none⟩
  | PollThrow.rethrown e => ⟨some e.message, none, none, none, e.status, none⟩

/-- A concrete polling run: a 404 race on the first poll, `in_progress` on
the second, `completed` on the third. -/
def pollsRace : Nat → PollStep := fun n =>
  if n = 1 then PollStep.raise ⟨some 404, "not found"⟩
  else if n = 2 then PollStep.file ⟨"in_progress", none⟩
  else PollStep.file ⟨"completed", none⟩

/-- A concrete polling run whose first poll reports `failed` with a vendor
reason. -/
def pollsFailedRun : Nat → PollStep := fun _ =>
  PollStep.file ⟨"failed", some "bad parse"⟩

/-- A polling run that never leaves `in_progress`. -/
def alwaysInProgress : Nat → PollStep := fun _ =>
  PollStep.file ⟨"in_progress", none⟩

/-! ## ProviderFactory / OpenAIProvider.getInstance / OpenAIConfigManager -/

/-- `AIProviderType` from `base/types.ts` (only OPENAI exists today). -/
inductive AIProviderType : Type
  | openai
deriving DecidableEq

/-- A constructed provider instance: `id` identifies the construction (two
constructions yield different ids, so equality of values models reference
equality), and `isInitialized` is the flag set by `initializeSync`. -/
structure Provider where
  id : Nat
  isInitialized : Bool
deriving DecidableEq

/-- `OpenAIConfigManager.isValidApiKey`:
`apiKey.startsWith("sk-") && apiKey.length > 20` (the prefix test is
modelled as equality of the first three characters). -/
def isValidApiKey (apiKey : String) : Bool :=
  decide (apiKey.toList.take 3 = "sk-".toList) && apiKey.length > 20

/-- The mutable state touched by `ProviderFactory.getProvider`:
`providers` is the factory's per-type map (only the OPENAI slot can ever
be filled), `openaiInstance` is `OpenAIProvider.instance` (the static
singleton), and `constructions` counts adapter constructions performed
(also serving as the next fresh instance id). -/
structure FactoryState where
  providers : Option Provider
  openaiInstance : Option Provider
  constructions : Nat
deriving DecidableEq

/-- The `OpenAIProvider` private constructor:
`new OpenAIConfigManager(config)` validates the credential
(`validateAndMergeConfig` throws `OpenAIConfigurationError` when the key
is absent/empty or fails the format check) and `initializeSync` then sets
`isInitialized = true`.  A throwing constructor leaves the state
unchanged. -/
def newOpenAIProvider (s : FactoryState) (apiKey : String) :
    Except MappedError (Provider × FactoryState) :=
  if apiKey = "" then
    Except.error (OpenAIConfigurationError "API Key de OpenAI es requerida")
  else if ¬ isValidApiKey apiKey then
    Except.error
      (OpenAIConfigurationError "Formato de API Key de OpenAI inválido. Debe empezar con sk-")
  else
    Except.ok (⟨s.constructions, true⟩, { s with constructions := s.constructions + 1 })

/-- `OpenAIProvider.getInstance(config)`: return the existing static
instance, or construct one; with no instance and no config it throws a
configuration error.  `config` is the optional api key passed down
(`none` models an undefined config). -/
def getInstance (s : FactoryState) (config : Option String) :
    Except MappedError (Provider × FactoryState) :=
  match s.openaiInstance with
  | some p => Except.ok (p, s)
  | none =>
    match config with
    | none =>
      Except.error
        (OpenAIConfigurationError "Se requiere configuración para inicializar OpenAI Provider")
    | some apiKey =>
      match newOpenAIProvider s apiKey with
      | Except.error err => Except.error err
      | Except.ok (p, s1) => Except.ok (p, { s1 with openaiInstance := some p })

/-- `ProviderFactory.createOpenAIProvider()`: bail out with `null` when
`openaiConfig.apiKey` is unset (falsy), otherwise call `getInstance`,
catching any construction error into `null`.  `env` is
`openaiConfig.apiKey` (`none` models unset/empty). -/
def createOpenAIProvider (env : Option String) (s : FactoryState) :
    Option Provider × FactoryState :=
  match env with
  | none => (none, s)
  | some apiKey =>
    match getInstance s (some apiKey) with
    | Except.ok (p, s1) => (some p, s1)
    | Except.error _ => (none, s)

/-- `ProviderFactory.getProvider(type)`: return the registered instance if
the map has one; otherwise construct (catching every error into `null`)
and register the provider only when it reports ready. -/
def getProvider (env : Option String) (type : AIProviderType) (s : FactoryState) :
    Option Provider × FactoryState :=
  match type, s.providers with
  | AIProviderType.openai, some p => (some p, s)
  | AIProviderType.openai, none =>
    match createOpenAIProvider env s with
    | (some p, s1) =>
      if p.isInitialized then (some p, { s1 with providers := some p }) else (none, s1)
    | (none, s1) => (none, s1)

/-- The factory state at process start: empty registry, no singleton, no
constructions. -/
def initialFactoryState : FactoryState := ⟨none, none, 0⟩

/-! ## OpenAIConfigManager.getMaskedApiKey -/

/-- `OpenAIConfigManager.getMaskedApiKey()`: credentials are modelled as
their character lists (`String.toList`), so `substring(0, 7)` is `take 7`
and `substring(length - 4)` is `drop (length - 4)`. -/
def getMaskedApiKey (key : List Char) : List Char :=
  if key.length ≤ 10 then ['*', '*', '*']
  else key.take 7 ++ ['.', '.', '.'] ++ key.drop (key.length - 4)

end CampProviders

namespace CampProviders

/-! ## Theorems -/

/-- C1: the classifier applies the ordered rule of the spec — recognized
vendor tags first (credentials → Authentication 401, rate limit →
RateLimit 429, quota → Quota 429, malformed request → Validation 400,
missing resource → NotFound 404), then the numeric status
(401 → Authentication, 404 → NotFound, 429 → RateLimit, 408 → Timeout,
other 400-499 → Validation, ≥ 500 → Server), and a generic unknown error
with status 500 when neither is present.  Amended: a raw error carrying
status 401 is classified as Authentication only when no recognized vendor
type tag takes precedence (the tag phase wins over the status phase, see
the counterexample). -/
theorem mapOpenAIError_ordered_rule (e : RawError) :
    (effectiveType e = some "invalid_api_key" ∨ effectiveType e = some "authentication_error" →
      (mapOpenAIError e).name = "OpenAIAuthenticationError" ∧ (mapOpenAIError e).statusCode = 401)
  ∧ (effectiveType e = some "rate_limit_exceeded" →
      (mapOpenAIError e).name = "OpenAIRateLimitError" ∧ (mapOpenAIError e).statusCode = 429)
  ∧ (effectiveType e = some "insufficient_quota" →
      (mapOpenAIError e).name = "OpenAIQuotaError" ∧ (mapOpenAIError e).statusCode = 429)
  ∧ (effectiveType e = some "invalid_request_error" →
      (mapOpenAIError e).name = "OpenAIValidationError" ∧ (mapOpenAIError e).statusCode = 400)
  ∧ (effectiveType e = some "not_found" →
      (mapOpenAIError e).name = "OpenAINotFoundError" ∧ (mapOpenAIError e).statusCode = 404)
  ∧ (noRecognizedTag e → effectiveStatus e = some 401 →
      (mapOpenAIError e).name = "OpenAIAuthenticationError" ∧ (mapOpenAIError e).statusCode = 401)
  ∧ (noRecognizedTag e → effectiveStatus e = some 404 →
      (mapOpenAIError e).name = "OpenAINotFoundError" ∧ (mapOpenAIError e).statusCode = 404)
  ∧ (noRecognizedTag e → effectiveStatus e = some 429 →
      (mapOpenAIError e).name = "OpenAIRateLimitError" ∧ (mapOpenAIError e).statusCode = 429)
  ∧ (noRecognizedTag e → effectiveStatus e = some 408 →
      (mapOpenAIError e).name = "OpenAITimeoutError" ∧ (mapOpenAIError e).statusCode = 408)
  ∧ (∀ s, noRecognizedTag e → effectiveStatus e = some s →
      400 ≤ s → s < 500 → s ≠ 401 → s ≠ 404 → s ≠ 429 → s ≠ 408 →
      (mapOpenAIError e).name = "OpenAIValidationError" ∧ (mapOpenAIError e).statusCode = 400)
  ∧ (∀ s, noRecognizedTag e → effectiveStatus e = some s → 500 ≤ s →
      (mapOpenAIError e).name = "OpenAIServerError" ∧ (mapOpenAIError e).statusCode = 500)
  ∧ (effectiveType e = none → effectiveStatus e = none →
      mapOpenAIError e = OpenAIErrorMk (effectiveMessage e) "unknown_error" 500) := by
  have tag : ∀ t ∈ recognizedTags, noRecognizedTag e → effectiveType e ≠ some t :=
    fun t ht hn => hn t ht
  refine ⟨?_, ?_, ?_, ?_, ?_, ?_, ?_, ?_, ?_, ?_, ?_, ?_⟩
  · rintro (h | h) <;>
      simp [mapOpenAIError, h, OpenAIAuthenticationError]
  · intro h
    simp [mapOpenAIError, h, OpenAIRateLimitError]
  · intro h
    simp [mapOpenAIError, h, OpenAIQuotaError]
  · intro h
    simp [mapOpenAIError, h, OpenAIValidationError]
  · intro h
    simp [mapOpenAIError, h, OpenAINotFoundError]
  · intro hn hs
    have h1 := tag "invalid_api_key" (by simp [recognizedTags]) hn
    have h2 := tag "authentication_error" (by simp [recognizedTags]) hn
    have h3 := tag "rate_limit_exceeded" (by simp [recognizedTags]) hn
    have h4 := tag "insufficient_quota" (by simp [recognizedTags]) hn
    have h5 := tag "invalid_request_error" (by simp [recognizedTags]) hn
    have h6 := tag "not_found" (by simp [recognizedTags]) hn
    simp [mapOpenAIError, h1, h2, h3, h4, h5, h6, hs, OpenAIAuthenticationError]
  · intro hn hs
    have h1 := tag "invalid_api_key" (by simp [recognizedTags]) hn
    have h2 := tag "authentication_error" (by simp [recognizedTags]) hn
    have h3 := tag "rate_limit_exceeded" (by simp [recognizedTags]) hn
    have h4 := tag "insufficient_quota" (by simp [recognizedTags]) hn
    have h5 := tag "invalid_request_error" (by simp [recognizedTags]) hn
    have h6 := tag "not_found" (by simp [recognizedTags]) hn
    simp [mapOpenAIError, h1, h2, h3, h4, h5, h6, hs, OpenAINotFoundError]
  · intro hn hs
    have h1 := tag "invalid_api_key" (by simp [recognizedTags]) hn
    have h2 := tag "authentication_error" (by simp [recognizedTags]) hn
    have h3 := tag "rate_limit_exceeded" (by simp [recognizedTags]) hn
    have h4 := tag "insufficient_quota" (by simp [recognizedTags]) hn
    have h5 := tag "invalid_request_error" (by simp [recognizedTags]) hn
    have h6 := tag "not_found" (by simp [recognizedTags]) hn
    simp [mapOpenAIError, h1, h2, h3, h4, h5, h6, hs, OpenAIRateLimitError]
  · intro hn hs
    have h1 := tag "invalid_api_key" (by simp [recognizedTags]) hn
    have h2 := tag "authentication_error" (by simp [recognizedTags]) hn
    have h3 := tag "rate_limit_exceeded" (by simp [recognizedTags]) hn
    have h4 := tag "insufficient_quota" (by simp [recognizedTags]) hn
    have h5 := tag "invalid_request_error" (by simp [recognizedTags]) hn
    have h6 := tag "not_found" (by simp [recognizedTags]) hn
    simp [mapOpenAIError, h1, h2, h3, h4, h5, h6, hs, OpenAITimeoutError]
  · intro s hn hs h400 h500 hne1 hne2 hne3 hne4
    have h1 := tag "invalid_api_key" (by simp [recognizedTags]) hn
    have h2 := tag "authentication_error" (by simp [recognizedTags]) hn
    have h3 := tag "rate_limit_exceeded" (by simp [recognizedTags]) hn
    have h4 := tag "insufficient_quota" (by simp [recognizedTags]) hn
    have h5 := tag "invalid_request_error" (by simp [recognizedTags]) hn
    have h6 := tag "not_found" (by simp [recognizedTags]) hn
    simp [mapOpenAIError, h1, h2, h3, h4, h5, h6, hs, hne1, hne2, hne3, hne4,
      h400, h500, OpenAIValidationError]
  · intro s hn hs h500
    have h1 := tag "invalid_api_key" (by simp [recognizedTags]) hn
    have h2 := tag "authentication_error" (by simp [recognizedTags]) hn
    have h3 := tag "rate_limit_exceeded" (by simp [recognizedTags]) hn
    have h4 := tag "insufficient_quota" (by simp [recognizedTags]) hn
    have h5 := tag "invalid_request_error" (by simp [recognizedTags]) hn
    have h6 := tag "not_found" (by simp [recognizedTags]) hn
    have hne1 : s ≠ 401 := by omega
    have hne2 : s ≠ 404 := by omega
    have hne3 : s ≠ 429 := by omega
    have hne4 : s ≠ 408 := by omega
    have hlt : ¬ s < 500 := by omega
    simp [mapOpenAIError, h1, h2, h3, h4, h5, h6, hs, hne1, hne2, hne3, hne4,
      hlt, h500, OpenAIServerError]
  · intro ht hs
    simp [mapOpenAIError, ht, hs, OpenAIErrorMk]

/-- C1 witness: a raw error with tag `rate_limit_exceeded` is classified as
RateLimit 429, and a tagless error with status 401 as Authentication 401. -/
theorem mapOpenAIError_ordered_rule_witness :
    ((mapOpenAIError ⟨some "m", none, some "rate_limit_exceeded", none, some 401, none⟩).name
        = "OpenAIRateLimitError"
      ∧ (mapOpenAIError ⟨some "m", none, some "rate_limit_exceeded", none, some 401, none⟩).statusCode
        = 429)
  ∧ ((mapOpenAIError ⟨some "m", none, none, none, some 401, none⟩).name
        = "OpenAIAuthenticationError"
      ∧ (mapOpenAIError ⟨some "m", none, none, none, some 401, none⟩).statusCode = 401) :=
  ⟨(mapOpenAIError_ordered_rule ⟨some "m", none, some "rate_limit_exceeded", none, some 401, none⟩).2.1
      rfl,
   (mapOpenAIError_ordered_rule ⟨some "m", none, none, none, some 401, none⟩).2.2.2.2.2.1
      (by intro t ht; simp [effectiveType]) rfl⟩

/-- Unfolding lemma for one iteration of the retry loop. -/
theorem retryGo_succ {α : Type} (op : Nat → Except OpError α) (m d fuel attempt : Nat)
    (le : Option OpError) (calls : Nat) (sleeps : List Nat) :
    retryGo op m d (fuel + 1) attempt le calls sleeps =
      if attempt > m then ⟨Except.error le, calls, sleeps⟩
      else
        match op attempt with
        | Except.ok v => ⟨Except.ok v, calls + 1, sleeps⟩
        | Except.error e =>
          if clientError e.statusCode then ⟨Except.error (some e), calls + 1, sleeps⟩
          else if attempt < m then
            retryGo op m d fuel (attempt + 1) (some e) (calls + 1) (sleeps ++ [d * attempt])
          else retryGo op m d fuel (attempt + 1) (some e) (calls + 1) sleeps := rfl

/-- The retry loop never forgets invocations already made. -/
theorem retryGo_calls_le {α : Type} (op : Nat → Except OpError α) (m d : Nat) :
    ∀ fuel attempt le calls sleeps,
      calls ≤ (retryGo op m d fuel attempt le calls sleeps).calls := by
  intro fuel
  induction fuel with
  | zero => intro attempt le calls sleeps; exact Nat.le_refl _
  | succ fuel ih =>
    intro attempt le calls sleeps
    rw [retryGo_succ]
    split
    · exact Nat.le_refl _
    · cases hop : op attempt with
      | ok v => exact Nat.le_succ _
      | error e =>
        simp only
        split
        · exact Nat.le_succ _
        · split
          · exact Nat.le_trans (Nat.le_succ _) (ih _ _ _ _)
          · exact Nat.le_trans (Nat.le_succ _) (ih _ _ _ _)

/-- As long as the loop condition holds and fuel remains, the loop performs
at least one more invocation. -/
theorem retryGo_calls_two {α : Type} (op : Nat → Except OpError α) (m d : Nat)
    (fuel attempt : Nat) (le : Option OpError) (calls : Nat) (sleeps : List Nat)
    (hf : 1 ≤ fuel) (ha : attempt ≤ m) :
    calls + 1 ≤ (retryGo op m d fuel attempt le calls sleeps).calls := by
  cases fuel with
  | zero => omega
  | succ fuel =>
    rw [retryGo_succ, if_neg (by omega : ¬ attempt > m)]
    cases hop : op attempt with
    | ok v => exact Nat.le_refl _
    | error e =>
      simp only
      split
      · exact Nat.le_refl _
      · split
        · exact retryGo_calls_le op m d _ _ _ _ _
        · exact retryGo_calls_le op m d _ _ _ _ _

/-- The retry loop only appends to the accumulated list of sleeps. -/
theorem retryGo_sleeps_prefix {α : Type} (op : Nat → Except OpError α) (m d : Nat) :
    ∀ fuel attempt le calls sleeps,
      ∃ t, (retryGo op m d fuel attempt le calls sleeps).sleeps = sleeps ++ t := by
  intro fuel
  induction fuel with
  | zero => intro attempt le calls sleeps; exact ⟨[], by simp [retryGo]⟩
  | succ fuel ih =>
    intro attempt le calls sleeps
    rw [retryGo_succ]
    split
    · exact ⟨[], by simp⟩
    · cases hop : op attempt with
      | ok v => exact ⟨[], by simp⟩
      | error e =>
        simp only
        split
        · exact ⟨[], by simp⟩
        · split
          · obtain ⟨t, ht⟩ := ih (attempt + 1) (some e) (calls + 1) (sleeps ++ [d * attempt])
            exact ⟨d * attempt :: t, by rw [ht]; simp⟩
          · exact ih (attempt + 1) (some e) (calls + 1) sleeps

/-- C2: for `retryOperation(op, 3, 1000)` where every invocation fails with
a status ≥ 500, the operation is invoked exactly 3 times, the backoff
sleeps are 1000ms before attempt 2 and 2000ms before attempt 3
(`delayMs * attempt`), and the error observed on the last attempt is
re-raised. -/
theorem retryOperation_exhausts_5xx (errs : Nat → OpError)
    (h : ∀ i, 1 ≤ i → i ≤ 3 → ∃ s, (errs i).statusCode = some s ∧ 500 ≤ s) :
    retryOperation (fun i => (Except.error (errs i) : Except OpError Unit)) 3 1000 =
      ⟨Except.error (some (errs 3)), 3, [1000, 2000]⟩ := by
  have hc : ∀ i, 1 ≤ i → i ≤ 3 → clientError (errs i).statusCode = false := by
    intro i h1 h3
    obtain ⟨s, hs, hb⟩ := h i h1 h3
    rw [hs]
    simp only [clientError, decide_eq_false_iff_not]
    omega
  have s1 : retryOperation (fun i => (Except.error (errs i) : Except OpError Unit)) 3 1000 =
      if clientError (errs 1).statusCode then ⟨Except.error (some (errs 1)), 1, []⟩
      else retryGo (fun i => (Except.error (errs i) : Except OpError Unit)) 3 1000 3 2 (some (errs 1)) 1
        [1000 * 1] := rfl
  rw [s1, hc 1 (by omega) (by omega), if_neg Bool.false_ne_true]
  have s2 : retryGo (fun i => (Except.error (errs i) : Except OpError Unit)) 3 1000 3 2 (some (errs 1)) 1
        [1000 * 1] =
      if clientError (errs 2).statusCode then
        ⟨Except.error (some (errs 2)), 2, [1000 * 1]⟩
      else retryGo (fun i => (Except.error (errs i) : Except OpError Unit)) 3 1000 2 3 (some (errs 2)) 2
        [1000 * 1, 1000 * 2] := rfl
  rw [s2, hc 2 (by omega) (by omega), if_neg Bool.false_ne_true]
  have s3 : retryGo (fun i => (Except.error (errs i) : Except OpError Unit)) 3 1000 2 3 (some (errs 2)) 2
        [1000 * 1, 1000 * 2] =
      if clientError (errs 3).statusCode then
        ⟨Except.error (some (errs 3)), 3, [1000 * 1, 1000 * 2]⟩
      else ⟨Except.error (some (errs 3)), 3, [1000 * 1, 1000 * 2]⟩ := rfl
  rw [s3, hc 3 (by omega) (by omega), if_neg Bool.false_ne_true]

/-- C2 witness: a concrete operation always failing with status 503. -/
theorem retryOperation_exhausts_5xx_witness :
    retryOperation (fun _ => (Except.error ⟨"upstream down", some 503⟩ : Except OpError Unit)) 3 1000 =
      ⟨Except.error (some ⟨"upstream down", some 503⟩), 3, [1000, 2000]⟩ :=
  retryOperation_exhausts_5xx (fun _ => ⟨"upstream down", some 503⟩)
    (fun _ _ _ => ⟨503, rfl, by omega⟩)

/-- C3: with at least two attempts available, a first-attempt failure is
re-raised immediately — one invocation, no sleep — exactly when its status
is a client error in the 4xx range; any other failure (status ≥ 500 or no
status) is retried after a `delayMs * 1` backoff sleep. -/
theorem retryOperation_4xx_short_circuit {α : Type} (op : Nat → Except OpError α)
    (e : OpError) (m d : Nat) (hm : 2 ≤ m) (hop : op 1 = Except.error e)
    (_hdom : ∀ s, e.statusCode = some s → 400 ≤ s) :
    ((∃ s, e.statusCode = some s ∧ s < 500) →
      retryOperation op m d = ⟨Except.error (some e), 1, []⟩)
  ∧ ((∀ s, e.statusCode = some s → 500 ≤ s) →
      2 ≤ (retryOperation op m d).calls ∧
      ∃ rest, (retryOperation op m d).sleeps = d * 1 :: rest) := by
  constructor
  · rintro ⟨s, hs, hlt⟩
    have hce : clientError e.statusCode = true := by
      rw [hs]
      simp only [clientError, decide_eq_true_eq]
      omega
    unfold retryOperation
    rw [retryGo_succ, if_neg (by omega : ¬ 1 > m), hop]
    simp [hce]
  · intro h5
    have hce : clientError e.statusCode = false := by
      cases hsc : e.statusCode with
      | none => rfl
      | some s =>
        have := h5 s hsc
        simp only [clientError, decide_eq_false_iff_not]
        omega
    have hstep : retryOperation op m d = retryGo op m d m 2 (some e) 1 [d * 1] := by
      unfold retryOperation
      rw [retryGo_succ, if_neg (by omega : ¬ 1 > m), hop]
      simp [hce, show 1 < m by omega]
    constructor
    · rw [hstep]
      exact retryGo_calls_two op m d m 2 (some e) 1 [d * 1] (by omega) (by omega)
    · obtain ⟨t, ht⟩ := retryGo_sleeps_prefix op m d m 2 (some e) 1 [d * 1]
      exact ⟨t, by rw [hstep, ht]; rfl⟩

/-- C3 witness: a concrete operation failing with status 400 on the first
attempt is invoked once and its error re-raised with no sleep. -/
theorem retryOperation_4xx_short_circuit_witness :
    retryOperation (fun _ => (Except.error ⟨"bad request", some 400⟩ : Except OpError Unit)) 3 1000 =
      ⟨Except.error (some ⟨"bad request", some 400⟩), 1, []⟩ :=
  (retryOperation_4xx_short_circuit (fun _ => (Except.error ⟨"bad request", some 400⟩ : Except OpError Unit))
      ⟨"bad request", some 400⟩ 3 1000 (by omega) rfl
      (by intro s hs; simp only [Option.some.injEq] at hs; omega)).1
    ⟨400, rfl, by omega⟩

/-- C10: with `maxRetries = 0` the attempt loop body never runs: the
operation is never invoked, no sleep happens, and the final
`throw lastError` throws the still-uninitialized `undefined`
(`Except.error none`), not an Error object. -/
theorem retryOperation_zero_attempts {α : Type} (op : Nat → Except OpError α) (d : Nat) :
    retryOperation op 0 d = ⟨Except.error none, 0, []⟩ := rfl

/-- C4: `sanitizeMetadata` passes string/number/boolean entries through
unchanged under the same key, drops `null`/`undefined` entries, and
replaces every other entry (objects, arrays) by its JSON string
serialization; in particular
`sanitizeMetadata {a:"x", b:5, c:true, d:null, e:{f:1}}` returns
`{a:"x", b:5, c:true, e:"{\x22f\x22:1}"}`. -/
theorem sanitizeMetadata_spec (m : List (String × JsValue)) (k : String) (v : JsValue) :
    (isScalar v = true → sanitizeEntries ((k, v) :: m) = (k, v) :: sanitizeEntries m)
  ∧ ((v = JsValue.null ∨ v = JsValue.undef) → sanitizeEntries ((k, v) :: m) = sanitizeEntries m)
  ∧ (isScalar v = false → v ≠ JsValue.null → v ≠ JsValue.undef →
      sanitizeEntries ((k, v) :: m) = (k, JsValue.str (stringify v)) :: sanitizeEntries m)
  ∧ sanitizeMetadata (some [("a", JsValue.str "x"), ("b", JsValue.num 5),
        ("c", JsValue.bool true), ("d", JsValue.null),
        ("e", JsValue.obj [("f", JsValue.num 1)])]) =
      some [("a", JsValue.str "x"), ("b", JsValue.num 5), ("c", JsValue.bool true),
        ("e", JsValue.str "\x7b\"f\":1\x7d")] := by
  refine ⟨?_, ?_, ?_, ?_⟩
  · intro h
    cases v <;> simp_all [isScalar, sanitizeEntries]
  · rintro (rfl | rfl) <;> simp [sanitizeEntries]
  · intro h hn hu
    cases v <;> simp_all [isScalar, sanitizeEntries]
  · rfl

/-- C4 witness: an array-valued entry is replaced by its JSON string. -/
theorem sanitizeMetadata_spec_witness :
    sanitizeEntries [("k", JsValue.arr [JsValue.num 2])] = [("k", JsValue.str "[2]")] :=
  (sanitizeMetadata_spec [] "k" (JsValue.arr [JsValue.num 2])).2.2.1 rfl
    (fun h => JsValue.noConfusion h) (fun h => JsValue.noConfusion h)

/-- Unfolding lemma for one iteration of the polling loop. -/
theorem pollGo_succ (polls : Nat → PollStep) (maxA fuel attempt : Nat) (delayMs : ℚ)
    (count : Nat) (waits : List ℚ) :
    pollGo polls maxA (fuel + 1) attempt delayMs count waits =
      if attempt > maxA then
        ⟨Except.error (PollThrow.plainError (timeoutMessage maxA)), count, waits⟩
      else
        match polls attempt with
        | PollStep.file f =>
          if f.status = "completed" then
            ⟨Except.ok f, count + 1, if 1 < attempt then waits ++ [delayMs] else waits⟩
          else if f.status = "failed" then
            ⟨Except.error (PollThrow.plainError (failedMessage f.lastErrorMessage)),
              count + 1, if 1 < attempt then waits ++ [delayMs] else waits⟩
          else if f.status = "cancelled" then
            ⟨Except.error (PollThrow.plainError cancelledMessage), count + 1,
              if 1 < attempt then waits ++ [delayMs] else waits⟩
          else
            pollGo polls maxA fuel (attempt + 1)
              (if 1 < attempt then min (delayMs * (3 / 2)) 5000 else delayMs) (count + 1)
              (if 1 < attempt then waits ++ [delayMs] else waits)
        | PollStep.raise e =>
          if e.status = some 404 ∧ attempt < maxA then
            pollGo polls maxA fuel (attempt + 1)
              (if 1 < attempt then min (delayMs * (3 / 2)) 5000 else delayMs) (count + 1)
              (if 1 < attempt then waits ++ [delayMs] else waits)
          else
            ⟨Except.error (PollThrow.rethrown e), count + 1,
              if 1 < attempt then waits ++ [delayMs] else waits⟩ := rfl

/-- A `completed` poll ends the loop at once with the polled record. -/
theorem pollGo_file_completed (polls : Nat → PollStep) (maxA fuel attempt : Nat)
    (delayMs : ℚ) (count : Nat) (waits : List ℚ) (f : PollFile)
    (hp : polls attempt = PollStep.file f) (hle : ¬ attempt > maxA)
    (hc : f.status = "completed") :
    pollGo polls maxA (fuel + 1) attempt delayMs count waits =
      ⟨Except.ok f, count + 1, if 1 < attempt then waits ++ [delayMs] else waits⟩ := by
  rw [pollGo_succ, if_neg hle, hp]
  simp [hc]

/-- A `failed` poll throws the failure-reason Error. -/
theorem pollGo_file_failed (polls : Nat → PollStep) (maxA fuel attempt : Nat)
    (delayMs : ℚ) (count : Nat) (waits : List ℚ) (f : PollFile)
    (hp : polls attempt = PollStep.file f) (hle : ¬ attempt > maxA)
    (hc : f.status = "failed") :
    pollGo polls maxA (fuel + 1) attempt delayMs count waits =
      ⟨Except.error (PollThrow.plainError (failedMessage f.lastErrorMessage)), count + 1,
        if 1 < attempt then waits ++ [delayMs] else waits⟩ := by
  rw [pollGo_succ, if_neg hle, hp]
  simp [hc]

/-- A `cancelled` poll throws the cancellation Error. -/
theorem pollGo_file_cancelled (polls : Nat → PollStep) (maxA fuel attempt : Nat)
    (delayMs : ℚ) (count : Nat) (waits : List ℚ) (f : PollFile)
    (hp : polls attempt = PollStep.file f) (hle : ¬ attempt > maxA)
    (hc : f.status = "cancelled") :
    pollGo polls maxA (fuel + 1) attempt delayMs count waits =
      ⟨Except.error (PollThrow.plainError cancelledMessage), count + 1,
        if 1 < attempt then waits ++ [delayMs] else waits⟩ := by
  rw [pollGo_succ, if_neg hle, hp]
  simp [hc]

/-- A non-terminal poll status continues the loop with the updated delay. -/
theorem pollGo_file_continue (polls : Nat → PollStep) (maxA fuel attempt : Nat)
    (delayMs : ℚ) (count : Nat) (waits : List ℚ) (f : PollFile)
    (hp : polls attempt = PollStep.file f) (hle : ¬ attempt > maxA)
    (h1 : ¬ f.status = "completed") (h2 : ¬ f.status = "failed")
    (h3 : ¬ f.status = "cancelled") :
    pollGo polls maxA (fuel + 1) attempt delayMs count waits =
      pollGo polls maxA fuel (attempt + 1)
        (if 1 < attempt then min (delayMs * (3 / 2)) 5000 else delayMs) (count + 1)
        (if 1 < attempt then waits ++ [delayMs] else waits) := by
  rw [pollGo_succ, if_neg hle, hp]
  simp [h1, h2, h3]

/-- A 404 retrieve error before the last attempt continues the loop. -/
theorem pollGo_raise_continue (polls : Nat → PollStep) (maxA fuel attempt : Nat)
    (delayMs : ℚ) (count : Nat) (waits : List ℚ) (e : PollError)
    (hp : polls attempt = PollStep.raise e) (hle : ¬ attempt > maxA)
    (hs : e.status = some 404) (hlt : attempt < maxA) :
    pollGo polls maxA (fuel + 1) attempt delayMs count waits =
      pollGo polls maxA fuel (attempt + 1)
        (if 1 < attempt then min (delayMs * (3 / 2)) 5000 else delayMs) (count + 1)
        (if 1 < attempt then waits ++ [delayMs] else waits) := by
  rw [pollGo_succ, if_neg hle, hp]
  simp [hs, hlt]

/-- A run whose every poll shows `in_progress` exhausts the budget and
throws the timeout Error. -/
theorem pollGo_timeout (polls : Nat → PollStep) (maxA : Nat)
    (h : ∀ n, polls n = PollStep.file ⟨"in_progress", none⟩) :
    ∀ fuel attempt delayMs count waits,
      (pollGo polls maxA fuel attempt delayMs count waits).result =
        Except.error (PollThrow.plainError (timeoutMessage maxA)) := by
  intro fuel
  induction fuel with
  | zero => intro attempt delayMs count waits; rfl
  | succ fuel ih =>
    intro attempt delayMs count waits
    by_cases hgt : attempt > maxA
    · rw [pollGo_succ, if_pos hgt]
    · rw [pollGo_file_continue polls maxA fuel attempt delayMs count waits _ (h attempt)
        hgt (by simp) (by simp) (by simp)]
      exact ih _ _ _ _

/-- Loop invariant: entering attempt `k` with `k - 1` polls done, backoff
delay `delaySeq (k - 2)` and waits `delaySeq 0, ..., delaySeq (k - 3)`
already performed, the final trace waits exactly
`delaySeq 0, ..., delaySeq (polls - 2)` and polls at most
`max maxAttempts (k - 1)` times. -/
theorem pollGo_invariant (polls : Nat → PollStep) (maxA : Nat) :
    ∀ fuel attempt, 1 ≤ attempt →
      ((pollGo polls maxA fuel attempt (delaySeq (attempt - 2)) (attempt - 1)
          ((List.range (attempt - 2)).map delaySeq)).waits =
        (List.range ((pollGo polls maxA fuel attempt (delaySeq (attempt - 2)) (attempt - 1)
          ((List.range (attempt - 2)).map delaySeq)).polls - 1)).map delaySeq)
      ∧ ∀ b, maxA ≤ b → attempt - 1 ≤ b →
          (pollGo polls maxA fuel attempt (delaySeq (attempt - 2)) (attempt - 1)
            ((List.range (attempt - 2)).map delaySeq)).polls ≤ b := by
  intro fuel
  induction fuel with
  | zero =>
    intro attempt h1
    refine ⟨?_, ?_⟩
    · show (List.range (attempt - 2)).map delaySeq =
        (List.range (attempt - 1 - 1)).map delaySeq
      rfl
    · intro b hb hab
      exact hab
  | succ fuel ih =>
    intro attempt h1
    have harg1 : (if 1 < attempt then
          ((List.range (attempt - 2)).map delaySeq) ++ [delaySeq (attempt - 2)]
        else (List.range (attempt - 2)).map delaySeq) =
        (List.range (attempt + 1 - 2)).map delaySeq := by
      by_cases hlt : 1 < attempt
      · rw [if_pos hlt, show attempt + 1 - 2 = (attempt - 2) + 1 by omega,
          List.range_succ, List.map_append]
        rfl
      · rw [if_neg hlt, show attempt + 1 - 2 = attempt - 2 by omega]
    have harg2 : (if 1 < attempt then min (delaySeq (attempt - 2) * (3 / 2)) 5000
          else delaySeq (attempt - 2)) = delaySeq (attempt + 1 - 2) := by
      by_cases hlt : 1 < attempt
      · rw [if_pos hlt, show attempt + 1 - 2 = (attempt - 2) + 1 by omega]
        rfl
      · rw [if_neg hlt, show attempt + 1 - 2 = attempt - 2 by omega]
    have hcount : attempt - 1 + 1 = attempt + 1 - 1 := by omega
    by_cases hgt : attempt > maxA
    · rw [pollGo_succ, if_pos hgt]
      refine ⟨?_, ?_⟩
      · show (List.range (attempt - 2)).map delaySeq =
          (List.range (attempt - 1 - 1)).map delaySeq
        rfl
      · intro b hb hab
        exact hab
    · cases hstep : polls attempt with
      | file f =>
        by_cases hc : f.status = "completed"
        · rw [pollGo_file_completed polls maxA fuel attempt _ _ _ f hstep hgt hc]
          refine ⟨?_, ?_⟩
          · show (if 1 < attempt then _ ++ _ else _) =
              (List.range (attempt - 1 + 1 - 1)).map delaySeq
            rw [harg1]
            congr 2
          · intro b hb hab
            show attempt - 1 + 1 ≤ b
            omega
        · by_cases hf : f.status = "failed"
          · rw [pollGo_file_failed polls maxA fuel attempt _ _ _ f hstep hgt hf]
            refine ⟨?_, ?_⟩
            · show (if 1 < attempt then _ ++ _ else _) =
                (List.range (attempt - 1 + 1 - 1)).map delaySeq
              rw [harg1]
              congr 2
            · intro b hb hab
              show attempt - 1 + 1 ≤ b
              omega
          · by_cases hx : f.status = "cancelled"
            · rw [pollGo_file_cancelled polls maxA fuel attempt _ _ _ f hstep hgt hx]
              refine ⟨?_, ?_⟩
              · show (if 1 < attempt then _ ++ _ else _) =
                  (List.range (attempt - 1 + 1 - 1)).map delaySeq
                rw [harg1]
                congr 2
              · intro b hb hab
                show attempt - 1 + 1 ≤ b
                omega
            · rw [pollGo_file_continue polls maxA fuel attempt _ _ _ f hstep hgt hc hf hx,
                harg1, harg2, hcount]
              refine ⟨(ih (attempt + 1) (by omega)).1, ?_⟩
              intro b hb hab
              exact (ih (attempt + 1) (by omega)).2 b hb (by omega)
      | raise e =>
        by_cases h404 : e.status = some 404 ∧ attempt < maxA
        · rw [pollGo_succ, if_neg hgt, hstep]
          simp only [h404, if_pos, and_self]
          rw [harg1, harg2, hcount]
          refine ⟨(ih (attempt + 1) (by omega)).1, ?_⟩
          intro b hb hab
          exact (ih (attempt + 1) (by omega)).2 b hb (by omega)
        · rw [pollGo_succ, if_neg hgt, hstep]
          simp only [if_neg h404]
          refine ⟨?_, ?_⟩
          · show (if 1 < attempt then _ ++ _ else _) =
              (List.range (attempt - 1 + 1 - 1)).map delaySeq
            rw [harg1]
            congr 2
          · intro b hb hab
            show attempt - 1 + 1 ≤ b
            omega

/-- C5: the attach-polling loop polls at most 60 times; the first poll
happens with no wait and the wait before each subsequent poll follows
`delaySeq` (1000ms at first, then `next = min(prev * 1.5, 5000)`); a
`completed` first poll returns that record immediately with no wait; and a
404-then-`in_progress`-then-`completed` sequence returns the completed
record on the third poll, well inside the attempt budget, after waits of
1000ms and 1500ms. -/
theorem waitForVectorStoreFile_spec (polls : Nat → PollStep) :
    ((waitForVectorStoreFile polls).polls ≤ 60)
  ∧ ((waitForVectorStoreFile polls).waits =
      (List.range ((waitForVectorStoreFile polls).polls - 1)).map delaySeq)
  ∧ delaySeq 0 = 1000
  ∧ (∀ n, delaySeq (n + 1) = min (delaySeq n * (3 / 2)) 5000)
  ∧ (∀ f, polls 1 = PollStep.file f → f.status = "completed" →
      waitForVectorStoreFile polls = ⟨Except.ok f, 1, []⟩)
  ∧ (∀ e f2 f3, polls 1 = PollStep.raise e → e.status = some 404 →
      polls 2 = PollStep.file f2 → f2.status = "in_progress" →
      polls 3 = PollStep.file f3 → f3.status = "completed" →
      waitForVectorStoreFile polls = ⟨Except.ok f3, 3, [1000, 1500]⟩) := by
  have hkey : waitForVectorStoreFile polls =
      pollGo polls 60 (60 + 1) 1 (delaySeq (1 - 2)) (1 - 1)
        ((List.range (1 - 2)).map delaySeq) := rfl
  have hinv := pollGo_invariant polls 60 (60 + 1) 1 (by omega)
  refine ⟨?_, ?_, rfl, fun n => rfl, ?_, ?_⟩
  · rw [hkey]
    exact hinv.2 60 (by omega) (by omega)
  · rw [hkey]
    exact hinv.1
  · intro f hp hc
    rw [show waitForVectorStoreFile polls = pollGo polls 60 (60 + 1) 1 1000 0 [] from rfl,
      pollGo_file_completed polls 60 60 1 1000 0 [] f hp (by omega) hc]
    norm_num
  · intro e f2 f3 h1 he h2 hs2 h3 hs3
    rw [show waitForVectorStoreFile polls = pollGo polls 60 (60 + 1) 1 1000 0 [] from rfl,
      pollGo_raise_continue polls 60 60 1 1000 0 [] e h1 (by omega) he (by omega)]
    norm_num
    rw [pollGo_file_continue polls 60 59 2 1000 1 [] f2 h2 (by omega)
      (by simp [hs2]) (by simp [hs2]) (by simp [hs2])]
    norm_num [min_def]
    rw [pollGo_file_completed polls 60 58 3 1500 2 [1000] f3 h3 (by omega) hs3]
    norm_num

/-- C5 witness: the concrete race run 404 → in_progress → completed. -/
theorem waitForVectorStoreFile_spec_witness :
    waitForVectorStoreFile pollsRace = ⟨Except.ok ⟨"completed", none⟩, 3, [1000, 1500]⟩ :=
  (waitForVectorStoreFile_spec pollsRace).2.2.2.2.2 ⟨some 404, "not found"⟩
    ⟨"in_progress", none⟩ ⟨"completed", none⟩ rfl rfl rfl rfl rfl rfl

/-- C6: a `failed` poll raises an error carrying the vendor failure reason
when present, and a `cancelled` poll raises a distinct cancellation error.
Amended: exhausting the 60-attempt budget raises a plain Error whose
message names the timeout and the attempt count, but — the plain Error
carrying no type tag and no status — `mapOpenAIError` surfaces it to the
caller as the generic unknown error with status 500, not as a Timeout-kind
error with status 408 (see the counterexample). -/
theorem waitForVectorStoreFile_terminal (polls : Nat → PollStep) :
    (∀ f, polls 1 = PollStep.file f → f.status = "failed" →
      (waitForVectorStoreFile polls).result =
        Except.error (PollThrow.plainError (failedMessage f.lastErrorMessage)))
  ∧ (∀ reason, failedMessage (some reason) = "Archivo falló al procesarse: " ++ reason)
  ∧ (∀ f, polls 1 = PollStep.file f → f.status = "cancelled" →
      (waitForVectorStoreFile polls).result =
        Except.error (PollThrow.plainError cancelledMessage))
  ∧ (∀ reason, cancelledMessage ≠ failedMessage (some reason))
  ∧ ((∀ n, polls n = PollStep.file ⟨"in_progress", none⟩) →
      (waitForVectorStoreFile polls).result =
        Except.error (PollThrow.plainError (timeoutMessage 60)))
  ∧ (mapOpenAIError (toRawError (PollThrow.plainError (timeoutMessage 60)))).message
      = timeoutMessage 60
  ∧ (mapOpenAIError (toRawError (PollThrow.plainError (timeoutMessage 60)))).type
      = "unknown_error"
  ∧ (mapOpenAIError (toRawError (PollThrow.plainError (timeoutMessage 60)))).statusCode
      = 500 := by
  refine ⟨?_, fun reason => rfl, ?_, ?_, ?_, rfl, rfl, rfl⟩
  · intro f hp hc
    rw [show waitForVectorStoreFile polls = pollGo polls 60 (60 + 1) 1 1000 0 [] from rfl,
      pollGo_file_failed polls 60 60 1 1000 0 [] f hp (by omega) hc]
  · intro f hp hc
    rw [show waitForVectorStoreFile polls = pollGo polls 60 (60 + 1) 1 1000 0 [] from rfl,
      pollGo_file_cancelled polls 60 60 1 1000 0 [] f hp (by omega) hc]
  · intro reason h
    have hd := congrArg (fun s => s.data.take 29) h
    simp only [failedMessage, Option.getD_some, String.data_append] at hd
    rw [List.take_left' (by decide :
      ("Archivo falló al procesarse: " : String).data.length = 29)] at hd
    exact absurd hd (by decide)
  · intro h
    exact pollGo_timeout polls 60 h (60 + 1) 1 1000 0 []

/-- C6 witness: a first poll reporting `failed` with a vendor reason
raises the Error carrying that reason. -/
theorem waitForVectorStoreFile_terminal_witness :
    (waitForVectorStoreFile pollsFailedRun).result =
      Except.error (PollThrow.plainError (failedMessage (some "bad parse"))) :=
  (waitForVectorStoreFile_terminal pollsFailedRun).1 ⟨"failed", some "bad parse"⟩ rfl rfl

/-- C6 counterexample: a run that never leaves `in_progress` exhausts the
60-attempt budget and throws the timeout Error, but after classification
the surfaced error has status 500 and type `unknown_error` — not the
Timeout kind with status 408 the claim requires. -/
theorem C6_counterexample :
    (waitForVectorStoreFile alwaysInProgress).result =
      Except.error (PollThrow.plainError (timeoutMessage 60))
  ∧ (mapOpenAIError (toRawError (PollThrow.plainError (timeoutMessage 60)))).statusCode ≠ 408
  ∧ (mapOpenAIError (toRawError (PollThrow.plainError (timeoutMessage 60)))).type
      ≠ "timeout_error"
  ∧ (mapOpenAIError (toRawError (PollThrow.plainError (timeoutMessage 60)))).statusCode
      = 500 :=
  ⟨pollGo_timeout alwaysInProgress 60 (fun _ => rfl) (60 + 1) 1 1000 0 [],
    by decide, by decide, rfl⟩

/-- C7: when the mandatory credential is missing (unset/empty key) or
malformed (the adapter constructor throws a configuration error), the
factory returns null — the provider is unavailable — raising nothing to
the caller, registering nothing, and leaving the state unchanged; in the
malformed case the underlying `getInstance` construction does fail with a
configuration error, which the factory catches and logs. -/
theorem getProvider_unavailable_on_bad_credentials (env : Option String) (s : FactoryState)
    (hreg : s.providers = none) (hinst : s.openaiInstance = none)
    (hbad : env = none ∨ ∃ k, env = some k ∧ isValidApiKey k = false) :
    (getProvider env AIProviderType.openai s).1 = none
  ∧ (getProvider env AIProviderType.openai s).2 = s
  ∧ (∀ k, env = some k →
      ∃ err, getInstance s (some k) = Except.error err ∧ err.type = "configuration_error") := by
  rcases hbad with rfl | ⟨k, rfl, hk⟩
  · refine ⟨?_, ?_, ?_⟩
    · simp [getProvider, hreg, createOpenAIProvider]
    · simp [getProvider, hreg, createOpenAIProvider]
    · intro k hk
      exact Option.noConfusion hk
  · have hgi : ∃ err, getInstance s (some k) = Except.error err
        ∧ err.type = "configuration_error" := by
      by_cases hk0 : k = ""
      · refine ⟨OpenAIConfigurationError "API Key de OpenAI es requerida", ?_, rfl⟩
        simp [getInstance, hinst, newOpenAIProvider, hk0]
      · refine ⟨OpenAIConfigurationError
          "Formato de API Key de OpenAI inválido. Debe empezar con sk-", ?_, rfl⟩
        simp [getInstance, hinst, newOpenAIProvider, hk0, hk]
    obtain ⟨err, herr, htype⟩ := hgi
    refine ⟨?_, ?_, ?_⟩
    · simp [getProvider, hreg, createOpenAIProvider, herr]
    · simp [getProvider, hreg, createOpenAIProvider, herr]
    · intro k2 hk2
      obtain rfl : k = k2 := by injection hk2
      exact ⟨err, herr, htype⟩

/-- C7 witness: a malformed key (wrong prefix) on a fresh registry yields
an unavailable provider. -/
theorem getProvider_unavailable_witness :
    (getProvider (some "bad-key") AIProviderType.openai initialFactoryState).1 = none :=
  (getProvider_unavailable_on_bad_credentials (some "bad-key") initialFactoryState rfl rfl
    (Or.inr ⟨"bad-key", rfl, by decide⟩)).1

/-- C8: two successive `getProvider` calls with no intervening config
change or reset, the first of which returns a provider, return the same
instance both times, and the second call performs no construction — it
returns the state of the first call unchanged (in particular the
construction counter stays put). -/
theorem getProvider_singleton (env : Option String) (s : FactoryState) (p : Provider)
    (h : (getProvider env AIProviderType.openai s).1 = some p) :
    getProvider env AIProviderType.openai (getProvider env AIProviderType.openai s).2 =
      (some p, (getProvider env AIProviderType.openai s).2) := by
  cases hp : s.providers with
  | some q =>
    simp only [getProvider, hp] at h ⊢
    simp only [Option.some.injEq] at h
    subst h
    rfl
  | none =>
    cases henv : env with
    | none =>
      simp [getProvider, hp, createOpenAIProvider, henv] at h
    | some k =>
      cases hinst : s.openaiInstance with
      | some q =>
        by_cases hini : q.isInitialized
        · simp only [getProvider, hp, createOpenAIProvider, henv, getInstance, hinst,
            if_pos hini] at h ⊢
          simp only [Option.some.injEq] at h
          subst h
          rfl
        · simp [getProvider, hp, createOpenAIProvider, henv, getInstance, hinst, hini] at h
      | none =>
        by_cases hk0 : k = ""
        · simp [getProvider, hp, createOpenAIProvider, henv, getInstance, hinst,
            newOpenAIProvider, hk0] at h
        · by_cases hkv : isValidApiKey k
          · have hii : getInstance s (some k) =
                Except.ok (⟨s.constructions, true⟩,
                  ⟨s.providers, some ⟨s.constructions, true⟩, s.constructions + 1⟩) := by
              simp [getInstance, hinst, newOpenAIProvider, hk0, hkv]
            have hfirst : getProvider (some k) AIProviderType.openai s =
                (some ⟨s.constructions, true⟩,
                  ⟨some ⟨s.constructions, true⟩, some ⟨s.constructions, true⟩,
                    s.constructions + 1⟩) := by
              simp [getProvider, hp, createOpenAIProvider, hii]
            rw [henv] at h
            rw [hfirst] at h ⊢
            obtain rfl : (⟨s.constructions, true⟩ : Provider) = p := by simpa using h
            simp [getProvider]
          · simp [getProvider, hp, createOpenAIProvider, henv, getInstance, hinst,
              newOpenAIProvider, hk0, hkv] at h

/-- C8 witness: with a valid key on a fresh state, the second call returns
the instance constructed by the first call and leaves the state alone. -/
theorem getProvider_singleton_witness :
    getProvider (some "sk-aaaaaaaaaaaaaaaaaaaa") AIProviderType.openai
        (getProvider (some "sk-aaaaaaaaaaaaaaaaaaaa") AIProviderType.openai
          initialFactoryState).2 =
      (some ⟨0, true⟩,
        (getProvider (some "sk-aaaaaaaaaaaaaaaaaaaa") AIProviderType.openai
          initialFactoryState).2) :=
  getProvider_singleton (some "sk-aaaaaaaaaaaaaaaaaaaa") initialFactoryState ⟨0, true⟩
    (by decide)

/-- C9 (amended): a credential of length at most 10 is masked to the
constant `***`, revealing nothing; a credential of length greater than 10
is masked to its first 7 characters, an ellipsis, and its last 4
characters; for length at least 12 this elides at least one middle
character, but at length exactly 11 the revealed prefix and suffix jointly
cover every character of the credential (see the counterexample). -/
theorem getMaskedApiKey_spec (key : List Char) :
    (key.length ≤ 10 → getMaskedApiKey key = ['*', '*', '*'])
  ∧ (10 < key.length →
      getMaskedApiKey key = key.take 7 ++ ['.', '.', '.'] ++ key.drop (key.length - 4)
      ∧ (key.take 7).length = 7 ∧ (key.drop (key.length - 4)).length = 4)
  ∧ (12 ≤ key.length → key.take 7 ++ key.drop (key.length - 4) ≠ key) := by
  refine ⟨?_, ?_, ?_⟩
  · intro hle
    simp [getMaskedApiKey, hle]
  · intro hgt
    refine ⟨by simp [getMaskedApiKey]; omega, ?_, ?_⟩
    · simp only [List.length_take]
      omega
    · simp only [List.length_drop]
      omega
  · intro h12 heq
    have hlen := congrArg List.length heq
    simp only [List.length_append, List.length_take, List.length_drop] at hlen
    omega

/-- C9 witness: a 23-character credential's revealed prefix and suffix do
not cover the whole credential. -/
theorem getMaskedApiKey_spec_witness :
    "sk-aaaaaaaaaaaaaaaaaaaa".toList.take 7 ++
      "sk-aaaaaaaaaaaaaaaaaaaa".toList.drop ("sk-aaaaaaaaaaaaaaaaaaaa".toList.length - 4)
      ≠ "sk-aaaaaaaaaaaaaaaaaaaa".toList :=
  (getMaskedApiKey_spec "sk-aaaaaaaaaaaaaaaaaaaa".toList).2.2 (by decide)

/-- C9 counterexample: the 11-character credential `sk-12345678` has
length greater than 10, yet its mask `sk-1234...5678` reveals the
7-character prefix and 4-character suffix that together spell the entire
credential — no middle character is elided. -/
theorem C9_counterexample :
    ("sk-12345678".toList.length > 10)
  ∧ getMaskedApiKey "sk-12345678".toList = "sk-1234...5678".toList
  ∧ "sk-12345678".toList.take 7 ++
      "sk-12345678".toList.drop ("sk-12345678".toList.length - 4)
      = "sk-12345678".toList :=
  ⟨by decide, by decide, by decide⟩

/-- C1 counterexample: a raw error carrying status 401 but a recognized
`not_found` vendor tag is classified as NotFound 404, not Authentication —
the tag phase wins over the status, refuting "every raw error carrying
status 401 is classified as Authentication". -/
theorem C1_counterexample :
    (⟨some "boom", none, some "not_found", none, some 401, none⟩ : RawError).status = some 401
  ∧ (mapOpenAIError ⟨some "boom", none, some "not_found", none, some 401, none⟩).name
      ≠ "OpenAIAuthenticationError"
  ∧ mapOpenAIError ⟨some "boom", none, some "not_found", none, some 401, none⟩
      = OpenAINotFoundError "boom" := by
  refine ⟨rfl, ?_, rfl⟩
  decide

end CampProviders
